import Mathlib

/-!
Verification of the `telemetry` package (metrics registry and log telemetry setup).

Shallow embedding of `src/telemetry/metrics.py`, `src/telemetry/traces.py` and
`src/telemetry/_exceptions.py`.

Python dictionaries are embedded as association lists with insertion-order
semantics: `dictInsert` overwrites an existing binding in place and otherwise
appends at the end, `dictLookup` finds the binding of a key, `dictErase`
(`dict.pop`) deletes it.  A dictionary produced by the Python runtime never
holds a duplicate key, which theorems assume through `Nodup` hypotheses on the
key list where needed.

The external collaborators (Azure exporter, OpenTelemetry meter provider,
Python `logging` module) are embedded only through their observable effects:
`create_histogram` yields an `Instrument` handle described by name/unit/
description, `Instrument.record` emits a `Measurement`, the logging module is
a `LoggingState` holding the handlers attached to the root logger, the log
record processors registered with the process-wide provider, and the current
log record factory.  Measurement amounts are Python floats that the code
passes through unchanged without any arithmetic, so they are embedded by an
opaque numeric stand-in type.
-/

/-- A Python dictionary with `String` keys, as an insertion-ordered
association list. -/
abbrev Dict (V : Type) : Type := List (String × V)

/-- Python `d[k]` lookup: the value bound to `k`, or `none` (Python `KeyError`). -/
def dictLookup {V : Type} (d : Dict V) (k : String) : Option V :=
  match d with
  | [] => none
  | (k', v) :: rest => if k' = k then some v else dictLookup rest k

/-- Python `k in d` membership test. -/
def dictContains {V : Type} (d : Dict V) (k : String) : Bool :=
  (dictLookup d k).isSome

/-- Python `d[k] = v` assignment: overwrite the existing binding in place, or append
a new binding at the end (Python dict insertion-order semantics). -/
def dictInsert {V : Type} (d : Dict V) (k : String) (v : V) : Dict V :=
  match d with
  | [] => [(k, v)]
  | (k', v') :: rest =>
    if k' = k then (k, v) :: rest else (k', v') :: dictInsert rest k v

/-- Python `d.pop(k)` deletion of the binding of `k`; a real dict holds `k` at most
once, so removing every binding of `k` agrees with Python on dict states. -/
def dictErase {V : Type} (d : Dict V) (k : String) : Dict V :=
  match d with
  | [] => []
  | (k', v') :: rest =>
    if k' = k then dictErase rest k else (k', v') :: dictErase rest k

/-- The keys of a dictionary, in order. -/
def dictKeys {V : Type} (d : Dict V) : List String :=
  d.map Prod.fst

/-- The two exception classes of `_exceptions.py` raised by `MetricsManager`. -/
inductive TelemetryError : Type where
  /-- Exception `MetricConfigurationException`: metric configuration failed due to
  errors in the input dict. -/
  | metricConfigurationException : TelemetryError
  /-- Exception `MetricNotFound`: the input metric was not found in the
  `MetricsManager` object. -/
  | metricNotFound : TelemetryError
deriving DecidableEq, Repr

/-- Attribute values and log record field values: arbitrary scalars passed
through unchanged, embedded as strings. -/
abbrev AttrValue : Type := String

/-- A float measurement: passed through to the exporter unchanged, with no
arithmetic performed on it, so an opaque numeric stand-in suffices. -/
abbrev Amount : Type := Int

/-- An instrument handle returned by `meter.create_histogram(name, unit,
description)`; the handle is determined by the three creation parameters. -/
structure Instrument : Type where
  name : String
  unit : String
  description : String
deriving DecidableEq, Repr

/-- One entry of a metric config dict.  The code reads the keys `"name"`,
`"unit"` and `"description"`; a missing key raises `KeyError`, hence each
field is optional. -/
structure ConfigEntry : Type where
  name : Option String
  unit : Option String
  description : Option String
deriving DecidableEq, Repr

/-- A config dict: metric key to config entry, in iteration order. -/
abbrev Config : Type := List (String × ConfigEntry)

/-- Evaluation of `self.meter.create_histogram(config[key]["name"],
config[key]["unit"], config[key]["description"])` for one entry: `none` is
the `KeyError` raised while reading a missing field, before any instrument
is created for this entry. -/
def mkInstrument (e : ConfigEntry) : Option Instrument :=
  match e.name, e.unit, e.description with
  | some n, some u, some d => some ⟨n, u, d⟩
  | _, _, _ => none

/-- The loop `for key in config: self.metrics[key] = self.meter.create_histogram(...)`
shared by `__init__` and `add`, wrapped in `try/except KeyError`.
Returns the instruments created so far (the side-effect trace on the meter),
the metrics dict after the loop, and the exception raised, if any.  On a
malformed entry the loop stops: earlier writes persist, the failing key is
not written, later keys are not visited. -/
def addLoop (created : List Instrument) (ms : Dict Instrument) :
    Config → List Instrument × Dict Instrument × Option TelemetryError
  | [] => (created, ms, none)
  | (key, entry) :: rest =>
    match mkInstrument entry with
    | some inst => addLoop (created ++ [inst]) (dictInsert ms key inst) rest
    | none => (created, ms, some TelemetryError.metricConfigurationException)

/-- The state of a `MetricsManager` object: the `metrics` dict from metric
key to instrument handle, and the `attributes` dict emitted with each
record.  The `meter` field is the external SDK handle, out of scope. -/
structure MetricsManager : Type where
  metrics : Dict Instrument
  attributes : Dict AttrValue
deriving DecidableEq, Repr

/-- Constructor `MetricsManager.__init__(name, interval, config, attributes)` without the
external exporter/meter wiring: build `self.metrics` from `config` by the
shared loop, re-raising `KeyError` as `MetricConfigurationException`, then
store `attributes`.  Returns the instruments created on the meter (also when
construction fails) together with the constructed object or the exception. -/
def constructResult (config : Config) (attributes : Dict AttrValue) :
    List Instrument × Except TelemetryError MetricsManager :=
  match addLoop [] [] config with
  | (created, ms, none) => (created, Except.ok ⟨ms, attributes⟩)
  | (created, _, some e) => (created, Except.error e)

/-- The constructed `MetricsManager`, or the exception `__init__` raises. -/
def MetricsManager.init (config : Config) (attributes : Dict AttrValue) :
    Except TelemetryError MetricsManager :=
  (constructResult config attributes).2

/-- The instruments `__init__` creates on the meter, in creation order,
including the case where construction then raises. -/
def constructCreated (config : Config) : List Instrument :=
  (constructResult config []).1

/-- A measurement handed to an instrument by `handle.record(amount,
self.attributes)`: the instrument, the amount, and the attribute dict
tagged onto it. -/
structure Measurement : Type where
  instrument : Instrument
  amount : Amount
  attributes : Dict AttrValue
deriving DecidableEq, Repr

/-- Method `MetricsManager.record(metric, amount)`: look `metric` up in
`self.metrics` and record `amount` with `self.attributes` on the instrument;
a `KeyError` (absent key) is re-raised as `MetricNotFound`.  Returns the
object state after the call and either the emitted measurement or the
exception. -/
def MetricsManager.record (m : MetricsManager) (metric : String)
    (amount : Amount) : MetricsManager × Except TelemetryError Measurement :=
  match dictLookup m.metrics metric with
  | some inst => (m, Except.ok ⟨inst, amount, m.attributes⟩)
  | none => (m, Except.error TelemetryError.metricNotFound)

/-- Method `MetricsManager.add(config)`: run the shared creation loop on
`self.metrics` in place; a `KeyError` is re-raised as
`MetricConfigurationException`, with the writes made before the failing
entry persisting. -/
def MetricsManager.add (m : MetricsManager) (config : Config) :
    MetricsManager × Option TelemetryError :=
  match addLoop [] m.metrics config with
  | (_, ms, err) => ({ m with metrics := ms }, err)

/-- Method `MetricsManager.remove(metric)`: `self.metrics.pop(metric)`, re-raising
`KeyError` as `MetricNotFound`.  `pop` mutates nothing when it raises. -/
def MetricsManager.remove (m : MetricsManager) (metric : String) :
    MetricsManager × Option TelemetryError :=
  if dictContains m.metrics metric then
    ({ m with metrics := dictErase m.metrics metric }, none)
  else
    (m, some TelemetryError.metricNotFound)

/-- Method `MetricsManager.add_attributes(attributes)`: the loop
`for key in attributes: self.attributes[key] = attributes[key]`. -/
def MetricsManager.add_attributes (m : MetricsManager)
    (attributes : Dict AttrValue) : MetricsManager :=
  { m with
    attributes := attributes.foldl (fun d p => dictInsert d p.1 p.2) m.attributes }

/-- Method `MetricsManager.remove_attributes(attribute)`:
`if attribute in self.attributes: self.attributes.pop(attribute)`.
(The Python parameter name `attribute` is a Lean keyword, hence `attrName`.) -/
def MetricsManager.remove_attributes (m : MetricsManager)
    (attrName : String) : MetricsManager :=
  if dictContains m.attributes attrName then
    { m with attributes := dictErase m.attributes attrName }
  else
    m

/-- Arguments passed through to the log record factory (`*args, **kwargs` in
Python); the code never inspects them, so an opaque stand-in suffices. -/
abbrev FactoryArgs : Type := List String

/-- A log record, observed through its named fields (`setattr` targets). -/
abbrev LogRecord : Type := Dict AttrValue

/-- A log record factory: builds a record from the factory arguments. -/
abbrev RecordFactory : Type := FactoryArgs → LogRecord

/-- The loop `for k, v in attributes.items(): setattr(record, k, v)`:
set each named field on the record, overwriting existing fields. -/
def setattrs (record : LogRecord) (attributes : Dict AttrValue) : LogRecord :=
  attributes.foldl (fun r p => dictInsert r p.1 p.2) record

/-- The process-wide state of the Python `logging` module and the
OpenTelemetry logger provider that `traces.py` mutates: the export-forwarding
`LoggingHandler`s attached to the root logger, the `BatchLogRecordProcessor`s
registered with the process-wide provider, the installed log record factory,
and a counter supplying identities for freshly constructed handler and
processor objects. -/
structure LoggingState : Type where
  rootExportHandlers : List Nat
  logRecordProcessors : List Nat
  recordFactory : RecordFactory
  nextId : Nat

/-- Method `Logger.addHandler(hdlr)`: appends `hdlr` unless the very same object is
already attached. -/
def addHandler (handlers : List Nat) (hdlr : Nat) : List Nat :=
  if hdlr ∈ handlers then handlers else handlers ++ [hdlr]

/-- Function `traces.setup_logging()`: after lowering the verbosity of the vendor
loggers and configuring the root format (levels and format are not observed
by any claim), it constructs a fresh `BatchLogRecordProcessor` and registers
it with the process-wide provider (`set_logger_provider` does not override an
existing provider, so processors accumulate), then constructs a fresh
`LoggingHandler` and attaches it to the root logger. -/
def setup_logging (s : LoggingState) : LoggingState :=
  { s with
    logRecordProcessors := s.logRecordProcessors ++ [s.nextId],
    rootExportHandlers := addHandler s.rootExportHandlers (s.nextId + 1),
    nextId := s.nextId + 2 }

/-- Function `traces.customize_record_factory(**attributes)`: read the currently
installed factory, install a wrapper that builds the record with the old
factory and then sets each given named field on it. -/
def customize_record_factory (attributes : Dict AttrValue)
    (s : LoggingState) : LoggingState :=
  let old_factory := s.recordFactory
  { s with
    recordFactory := fun args => setattrs (old_factory args) attributes }

/-- Every object id stored in the logging state was handed out by the
freshness counter: true of every state reachable from a start state whose
lists are empty. -/
def LoggingState.wf (s : LoggingState) : Prop :=
  (∀ h ∈ s.rootExportHandlers, h < s.nextId) ∧
  (∀ p ∈ s.logRecordProcessors, p < s.nextId)

/-! ## Concrete instances (from the class docstring's example config) -/

/-- The `"latency"` example entry of the class docstring. -/
def entryLatency : ConfigEntry :=
  ⟨some "latency", some "s", some "Request latency for API calls."⟩

/-- An entry whose `"unit"` field is missing. -/
def entryNoUnit : ConfigEntry :=
  ⟨some "errors", none, some "Error count."⟩

/-- The instrument handle created from `entryLatency`. -/
def instLatency : Instrument :=
  ⟨"latency", "s", "Request latency for API calls."⟩

/-- A single-entry well-formed config. -/
def cfgLatency : Config := [("latency", entryLatency)]

/-- A config whose first entry is well-formed and whose second entry is
missing its unit. -/
def cfgGoodBad : Config := [("latency", entryLatency), ("errors", entryNoUnit)]

/-- A manager state with one registered metric and one attribute. -/
def mgrEx : MetricsManager := ⟨[("latency", instLatency)], [("region", "us")]⟩

/-- A concrete logging state: nothing attached yet, a factory producing a
one-field record. -/
def s₀ : LoggingState := ⟨[], [], fun _ => [("msg", "hello")], 0⟩

/-! ## Dictionary lemmas -/

theorem dictLookup_insert_self {V : Type} (d : Dict V) (k : String) (v : V) :
    dictLookup (dictInsert d k v) k = some v := by
  induction d with
  | nil => simp [dictInsert, dictLookup]
  | cons p rest ih =>
    obtain ⟨k', v'⟩ := p
    by_cases h : k' = k
    · simp [dictInsert, dictLookup, h]
    · simp [dictInsert, dictLookup, h, ih]

theorem dictLookup_insert_ne {V : Type} (d : Dict V) (k₁ k₂ : String) (v : V)
    (h : k₂ ≠ k₁) : dictLookup (dictInsert d k₁ v) k₂ = dictLookup d k₂ := by
  induction d with
  | nil => simp [dictInsert, dictLookup, Ne.symm h]
  | cons p rest ih =>
    obtain ⟨k', v'⟩ := p
    by_cases hk : k' = k₁
    · subst hk
      simp [dictInsert, dictLookup, Ne.symm h]
    · simp [dictInsert, dictLookup, hk, ih]

theorem dictInsert_absent {V : Type} (d : Dict V) (k : String) (v : V)
    (h : dictLookup d k = none) : dictInsert d k v = d ++ [(k, v)] := by
  induction d with
  | nil => simp [dictInsert]
  | cons p rest ih =>
    obtain ⟨k', v'⟩ := p
    by_cases hk : k' = k
    · simp [dictLookup, hk] at h
    · simp [dictLookup, hk] at h
      simp [dictInsert, hk, ih h]

theorem dictLookup_erase_self {V : Type} (d : Dict V) (k : String) :
    dictLookup (dictErase d k) k = none := by
  induction d with
  | nil => simp [dictErase, dictLookup]
  | cons p rest ih =>
    obtain ⟨k', v'⟩ := p
    by_cases hk : k' = k
    · simp [dictErase, hk, ih]
    · simp [dictErase, dictLookup, hk, ih]

theorem dictLookup_foldl_insert_notmem {V : Type} (l : List (String × V))
    (d : Dict V) (k : String) (h : k ∉ l.map Prod.fst) :
    dictLookup (l.foldl (fun d p => dictInsert d p.1 p.2) d) k = dictLookup d k := by
  induction l generalizing d with
  | nil => rfl
  | cons p rest ih =>
    obtain ⟨k', v'⟩ := p
    simp only [List.map_cons, List.mem_cons, not_or] at h
    simp only [List.foldl_cons]
    rw [ih (dictInsert d k' v') h.2, dictLookup_insert_ne d k' k v' h.1]

theorem dictLookup_foldl_insert_mem {V : Type} (l : List (String × V))
    (d : Dict V) (k : String) (v : V) (hnd : (l.map Prod.fst).Nodup)
    (hmem : (k, v) ∈ l) :
    dictLookup (l.foldl (fun d p => dictInsert d p.1 p.2) d) k = some v := by
  induction l generalizing d with
  | nil => cases hmem
  | cons p rest ih =>
    obtain ⟨k', v'⟩ := p
    simp only [List.map_cons, List.nodup_cons] at hnd
    rcases List.mem_cons.mp hmem with heq | htail
    · obtain ⟨hk, hv⟩ := Prod.mk.injEq .. ▸ heq
      subst hk; subst hv
      simp only [List.foldl_cons]
      rw [dictLookup_foldl_insert_notmem rest (dictInsert d k v) k hnd.1,
        dictLookup_insert_self]
    · exact ih (dictInsert d k' v') hnd.2 htail

/-! ## Lemmas about the shared instrument-creation loop -/

theorem addLoop_all_valid_err (config : Config) (created : List Instrument)
    (ms : Dict Instrument) (hv : ∀ p ∈ config, (mkInstrument p.2).isSome) :
    (addLoop created ms config).2.2 = none := by
  induction config generalizing created ms with
  | nil => rfl
  | cons p rest ih =>
    obtain ⟨k, e⟩ := p
    obtain ⟨i, hi⟩ := Option.isSome_iff_exists.mp (hv (k, e) (List.mem_cons_self _ _))
    simp only [addLoop, hi]
    exact ih (created ++ [i]) (dictInsert ms k i)
      (fun q hq => hv q (List.mem_cons_of_mem _ hq))

theorem addLoop_all_valid_created (config : Config) (created : List Instrument)
    (ms : Dict Instrument) (hv : ∀ p ∈ config, (mkInstrument p.2).isSome) :
    (addLoop created ms config).1 =
      created ++ config.filterMap (fun p => mkInstrument p.2) := by
  induction config generalizing created ms with
  | nil => simp [addLoop]
  | cons p rest ih =>
    obtain ⟨k, e⟩ := p
    obtain ⟨i, hi⟩ := Option.isSome_iff_exists.mp (hv (k, e) (List.mem_cons_self _ _))
    simp only [addLoop, hi]
    rw [ih (created ++ [i]) (dictInsert ms k i)
      (fun q hq => hv q (List.mem_cons_of_mem _ hq))]
    simp [hi]

theorem addLoop_lookup_notmem (config : Config) (created : List Instrument)
    (ms : Dict Instrument) (k : String) (h : k ∉ config.map Prod.fst) :
    dictLookup (addLoop created ms config).2.1 k = dictLookup ms k := by
  induction config generalizing created ms with
  | nil => rfl
  | cons p rest ih =>
    obtain ⟨k', e⟩ := p
    simp only [List.map_cons, List.mem_cons, not_or] at h
    cases hi : mkInstrument e with
    | some i =>
      simp only [addLoop, hi]
      rw [ih (created ++ [i]) (dictInsert ms k' i) h.2,
        dictLookup_insert_ne ms k' k i h.1]
    | none => simp [addLoop, hi]

theorem addLoop_all_valid_lookup (config : Config) (created : List Instrument)
    (ms : Dict Instrument) (k : String) (e : ConfigEntry) (i : Instrument)
    (hv : ∀ p ∈ config, (mkInstrument p.2).isSome)
    (hnd : (config.map Prod.fst).Nodup)
    (hmem : (k, e) ∈ config) (hi : mkInstrument e = some i) :
    dictLookup (addLoop created ms config).2.1 k = some i := by
  induction config generalizing created ms with
  | nil => cases hmem
  | cons p rest ih =>
    obtain ⟨k', e'⟩ := p
    simp only [List.map_cons, List.nodup_cons] at hnd
    obtain ⟨i', hi'⟩ := Option.isSome_iff_exists.mp (hv (k', e') (List.mem_cons_self _ _))
    simp only [addLoop, hi']
    rcases List.mem_cons.mp hmem with heq | htail
    · obtain ⟨hk, he⟩ := Prod.mk.injEq .. ▸ heq
      subst hk; subst he
      rw [addLoop_lookup_notmem rest (created ++ [i']) (dictInsert ms k i') k hnd.1,
        dictLookup_insert_self]
      rw [hi'] at hi
      exact (Option.some.injEq .. ▸ hi) ▸ rfl
    · exact ih (created ++ [i']) (dictInsert ms k' i')
        (fun q hq => hv q (List.mem_cons_of_mem _ hq)) hnd.2 htail

theorem addLoop_all_valid_keys (config : Config) (created : List Instrument)
    (ms : Dict Instrument) (hv : ∀ p ∈ config, (mkInstrument p.2).isSome)
    (hnd : (config.map Prod.fst).Nodup)
    (hdisj : ∀ k ∈ config.map Prod.fst, dictLookup ms k = none) :
    dictKeys (addLoop created ms config).2.1 =
      dictKeys ms ++ config.map Prod.fst := by
  induction config generalizing created ms with
  | nil => simp [addLoop]
  | cons p rest ih =>
    obtain ⟨k, e⟩ := p
    simp only [List.map_cons, List.nodup_cons] at hnd
    obtain ⟨i, hi⟩ := Option.isSome_iff_exists.mp (hv (k, e) (List.mem_cons_self _ _))
    simp only [addLoop, hi]
    have habs : dictLookup ms k = none :=
      hdisj k (by simp)
    have hdisj' : ∀ k' ∈ rest.map Prod.fst, dictLookup (dictInsert ms k i) k' = none := by
      intro k' hk'
      have hne : k' ≠ k := fun hc => hnd.1 (hc ▸ hk')
      rw [dictLookup_insert_ne ms k k' i hne]
      exact hdisj k' (by simp [hk'])
    rw [ih (created ++ [i]) (dictInsert ms k i)
      (fun q hq => hv q (List.mem_cons_of_mem _ hq)) hnd.2 hdisj']
    rw [dictInsert_absent ms k i habs]
    simp [dictKeys]

theorem addLoop_first_bad (config : Config) (created : List Instrument)
    (ms : Dict Instrument) (hbad : ∃ p ∈ config, mkInstrument p.2 = none) :
    addLoop created ms config =
      ((addLoop created ms (config.takeWhile fun p => (mkInstrument p.2).isSome)).1,
       (addLoop created ms (config.takeWhile fun p => (mkInstrument p.2).isSome)).2.1,
       some TelemetryError.metricConfigurationException) := by
  induction config generalizing created ms with
  | nil => simp at hbad
  | cons p rest ih =>
    obtain ⟨k, e⟩ := p
    cases hi : mkInstrument e with
    | none =>
      simp [addLoop, List.takeWhile_cons, hi]
    | some i =>
      have hbad' : ∃ q ∈ rest, mkInstrument q.2 = none := by
        rcases hbad with ⟨q, hq, hqnone⟩
        rcases List.mem_cons.mp hq with rfl | htail
        · rw [hi] at hqnone; cases hqnone
        · exact ⟨q, htail, hqnone⟩
      simp only [addLoop, hi, List.takeWhile_cons, Option.isSome_some, if_true]
      exact ih (created ++ [i]) (dictInsert ms k i) hbad'

/-! ## Logging-state helper lemmas -/

theorem setup_logging_fresh (s : LoggingState) (hwf : s.wf) :
    setup_logging s =
      ⟨s.rootExportHandlers ++ [s.nextId + 1],
       s.logRecordProcessors ++ [s.nextId],
       s.recordFactory, s.nextId + 2⟩ := by
  have hnm : s.nextId + 1 ∉ s.rootExportHandlers := by
    intro hc
    have := hwf.1 _ hc
    omega
  simp [setup_logging, addHandler, hnm]

theorem setup_logging_wf (s : LoggingState) (hwf : s.wf) :
    (setup_logging s).wf := by
  rw [setup_logging_fresh s hwf]
  refine ⟨?_, ?_⟩ <;> intro x hx <;> simp at hx ⊢
  · rcases hx with hx | hx
    · have := hwf.1 _ hx; omega
    · omega
  · rcases hx with hx | hx
    · have := hwf.2 _ hx; omega
    · omega

/-! ## Claim theorems -/

/-- C1: `record(metric, amount)` on a key registered in the metrics map never
raises `MetricNotFound` and records `amount` against that key's instrument
handle tagged with the current attribute map; on any key absent from the
metrics map it always raises `MetricNotFound`. -/
theorem record_registered_iff (m : MetricsManager) (k : String) (a : Amount) :
    (∀ i, dictLookup m.metrics k = some i →
      m.record k a = (m, Except.ok ⟨i, a, m.attributes⟩)) ∧
    (dictLookup m.metrics k = none →
      m.record k a = (m, Except.error TelemetryError.metricNotFound)) := by
  constructor
  · intro i hi
    simp [MetricsManager.record, hi]
  · intro hn
    simp [MetricsManager.record, hn]

/-- Witness for C1 at the docstring's example: recording on `"latency"`
emits the measurement, recording on `"missing"` raises. -/
theorem record_registered_iff_witness :
    mgrEx.record "latency" 42 =
      (mgrEx, Except.ok ⟨instLatency, 42, [("region", "us")]⟩) ∧
    mgrEx.record "missing" 1 =
      (mgrEx, Except.error TelemetryError.metricNotFound) :=
  ⟨(record_registered_iff mgrEx "latency" 42).1 instLatency (by decide),
   (record_registered_iff mgrEx "missing" 1).2 (by decide)⟩

/-- C10: the two maps are mutually framed: `record` and `remove` (whether
they succeed or raise) leave the attribute map unchanged, and
`add_attributes` and `remove_attributes` leave the metrics map unchanged. -/
theorem metrics_attributes_frame (m : MetricsManager) (k a : String)
    (amt : Amount) (attrs : Dict AttrValue) :
    (m.record k amt).1.attributes = m.attributes ∧
    (m.remove k).1.attributes = m.attributes ∧
    (m.add_attributes attrs).metrics = m.metrics ∧
    (m.remove_attributes a).metrics = m.metrics := by
  refine ⟨?_, ?_, rfl, ?_⟩
  · unfold MetricsManager.record
    cases dictLookup m.metrics k <;> rfl
  · unfold MetricsManager.remove
    by_cases h : dictContains m.metrics k <;> simp [h]
  · unfold MetricsManager.remove_attributes
    by_cases h : dictContains m.attributes a <;> simp [h]

/-- C2: for every config in which every entry has `name`, `unit` and
`description`, construction succeeds and the resulting metrics map has
exactly one entry per key of the config (and no other keys), each
retrievable by its key. -/
theorem init_valid_config (config : Config) (attrs : Dict AttrValue)
    (hv : ∀ p ∈ config, (mkInstrument p.2).isSome)
    (hnd : (config.map Prod.fst).Nodup) :
    ∃ m, MetricsManager.init config attrs = Except.ok m ∧
      dictKeys m.metrics = config.map Prod.fst ∧
      (∀ p ∈ config, ∃ i, mkInstrument p.2 = some i ∧
        dictLookup m.metrics p.1 = some i) ∧
      m.attributes = attrs := by
  have herr := addLoop_all_valid_err config [] [] hv
  have hkeys := addLoop_all_valid_keys config [] [] hv hnd (fun k _ => rfl)
  rcases hloop : addLoop [] [] config with ⟨c, d, err⟩
  rw [hloop] at herr hkeys
  simp only at herr
  subst herr
  refine ⟨⟨d, attrs⟩, ?_, ?_, ?_, rfl⟩
  · simp [MetricsManager.init, constructResult, hloop]
  · simpa [dictKeys] using hkeys
  · intro p hp
    obtain ⟨i, hi⟩ := Option.isSome_iff_exists.mp (hv p hp)
    refine ⟨i, hi, ?_⟩
    have := addLoop_all_valid_lookup config [] [] p.1 p.2 i hv hnd
      (by simpa using hp) hi
    rw [hloop] at this
    simpa using this

/-- Witness for C2 at the docstring's single-entry example config. -/
theorem init_valid_config_witness :
    ∃ m, MetricsManager.init cfgLatency [("region", "us")] = Except.ok m ∧
      dictKeys m.metrics = cfgLatency.map Prod.fst ∧
      (∀ p ∈ cfgLatency, ∃ i, mkInstrument p.2 = some i ∧
        dictLookup m.metrics p.1 = some i) ∧
      m.attributes = [("region", "us")] :=
  init_valid_config cfgLatency [("region", "us")] (by decide) (by decide)

/-- C3 counterexample: on a config whose first entry is well-formed and whose
second entry is missing `"unit"`, construction raises
`MetricConfigurationException`, but NOT before any instrument is created:
the instrument for the first entry has already been created on the meter. -/
theorem init_bad_entry_counterexample :
    MetricsManager.init cfgGoodBad [] =
      Except.error TelemetryError.metricConfigurationException ∧
    constructCreated cfgGoodBad = [instLatency] ∧
    constructCreated cfgGoodBad ≠ [] :=
  ⟨rfl, rfl, by decide⟩

/-- C3 (amended): for every config containing an entry missing `name`,
`unit` or `description`, construction raises `MetricConfigurationException`,
and no instrument is created for the first malformed entry or anything after
it: the instruments created before the exception are exactly those of the
well-formed entries preceding the first malformed one. -/
theorem init_bad_entry (config : Config) (attrs : Dict AttrValue)
    (hbad : ∃ p ∈ config, mkInstrument p.2 = none) :
    MetricsManager.init config attrs =
      Except.error TelemetryError.metricConfigurationException ∧
    constructCreated config =
      (config.takeWhile fun p => (mkInstrument p.2).isSome).filterMap
        (fun p => mkInstrument p.2) := by
  have hstep := addLoop_first_bad config [] [] hbad
  have hvpre : ∀ q ∈ config.takeWhile fun p => (mkInstrument p.2).isSome,
      (mkInstrument q.2).isSome := by
    intro q hq
    exact List.mem_takeWhile_imp
      (p := fun (r : String × ConfigEntry) => (mkInstrument r.2).isSome) hq
  have hpre := addLoop_all_valid_created
    (config.takeWhile fun p => (mkInstrument p.2).isSome) [] [] hvpre
  constructor
  · simp [MetricsManager.init, constructResult, hstep]
  · simp [constructCreated, constructResult, hstep]
    simpa using hpre

/-- Witness for the amended C3 at the good-then-bad config. -/
theorem init_bad_entry_witness :
    MetricsManager.init cfgGoodBad [] =
      Except.error TelemetryError.metricConfigurationException ∧
    constructCreated cfgGoodBad =
      (cfgGoodBad.takeWhile fun p => (mkInstrument p.2).isSome).filterMap
        (fun p => mkInstrument p.2) :=
  init_bad_entry cfgGoodBad [] (by decide)

/-- C4: `add` on a config containing a malformed entry raises
`MetricConfigurationException`; keys iterated before the failing entry have
been written into the metrics map (overwriting existing entries), while the
failing key and keys not yet iterated are not written. -/
theorem add_bad_entry (m : MetricsManager) (config : Config)
    (hbad : ∃ p ∈ config, mkInstrument p.2 = none)
    (hnd : (config.map Prod.fst).Nodup) :
    (m.add config).2 = some TelemetryError.metricConfigurationException ∧
    (∀ p ∈ config.takeWhile (fun p => (mkInstrument p.2).isSome),
      ∃ i, mkInstrument p.2 = some i ∧
        dictLookup (m.add config).1.metrics p.1 = some i) ∧
    (∀ k, k ∉ (config.takeWhile (fun p => (mkInstrument p.2).isSome)).map Prod.fst →
      dictLookup (m.add config).1.metrics k = dictLookup m.metrics k) := by
  have hstep := addLoop_first_bad config [] m.metrics hbad
  have hvpre : ∀ q ∈ config.takeWhile fun p => (mkInstrument p.2).isSome,
      (mkInstrument q.2).isSome := by
    intro q hq
    exact List.mem_takeWhile_imp
      (p := fun (r : String × ConfigEntry) => (mkInstrument r.2).isSome) hq
  have hndpre : ((config.takeWhile
      (fun p => (mkInstrument p.2).isSome)).map Prod.fst).Nodup :=
    hnd.sublist ((List.takeWhile_sublist _).map Prod.fst)
  have hadd : m.add config =
      ({ m with metrics :=
          (addLoop [] m.metrics
            (config.takeWhile fun p => (mkInstrument p.2).isSome)).2.1 },
       some TelemetryError.metricConfigurationException) := by
    unfold MetricsManager.add
    rw [hstep]
  refine ⟨by rw [hadd], ?_, ?_⟩
  · intro p hp
    obtain ⟨i, hi⟩ := Option.isSome_iff_exists.mp (hvpre p hp)
    refine ⟨i, hi, ?_⟩
    rw [hadd]
    exact addLoop_all_valid_lookup _ [] m.metrics p.1 p.2 i hvpre hndpre
      (by simpa using hp) hi
  · intro k hk
    rw [hadd]
    exact addLoop_lookup_notmem _ [] m.metrics k hk

/-- Witness for C4: adding the good-then-bad config to the example manager
raises, overwrites `"latency"` with the new instrument, and does not write
`"errors"`. -/
theorem add_bad_entry_witness :
    (mgrEx.add cfgGoodBad).2 = some TelemetryError.metricConfigurationException ∧
    dictLookup (mgrEx.add cfgGoodBad).1.metrics "latency" = some instLatency ∧
    dictLookup (mgrEx.add cfgGoodBad).1.metrics "errors" = none := by
  have h := add_bad_entry mgrEx cfgGoodBad (by decide) (by decide)
  refine ⟨h.1, ?_, ?_⟩
  · obtain ⟨i, hi, hl⟩ := h.2.1 ("latency", entryLatency) (by decide)
    have hii : instLatency = i :=
      Option.some.inj ((rfl : mkInstrument entryLatency = some instLatency).symm.trans hi)
    rw [hii]
    exact hl
  · have := h.2.2 "errors" (by decide)
    rw [this]
    decide

/-- C5: `remove` on a registered key deletes the entry, so that a subsequent
`record` or `remove` on the same key raises `MetricNotFound`; `remove` on an
absent key raises `MetricNotFound`. -/
theorem remove_spec (m : MetricsManager) (k : String) (a : Amount) :
    (dictContains m.metrics k = true →
      (m.remove k).2 = none ∧
      dictLookup (m.remove k).1.metrics k = none ∧
      ((m.remove k).1.record k a).2 =
        Except.error TelemetryError.metricNotFound ∧
      ((m.remove k).1.remove k).2 = some TelemetryError.metricNotFound) ∧
    (dictContains m.metrics k = false →
      m.remove k = (m, some TelemetryError.metricNotFound)) := by
  constructor
  · intro h
    have hr : m.remove k =
        (⟨dictErase m.metrics k, m.attributes⟩, none) := by
      simp [MetricsManager.remove, h]
    refine ⟨by rw [hr], ?_, ?_, ?_⟩
    · rw [hr]
      exact dictLookup_erase_self m.metrics k
    · rw [hr]
      simp [MetricsManager.record, dictLookup_erase_self]
    · rw [hr]
      simp [MetricsManager.remove, dictContains, dictLookup_erase_self]
  · intro h
    simp [MetricsManager.remove, h]

/-- Witness for C5 at the example manager: removing `"latency"` succeeds and
makes later `record`/`remove` on it raise; removing `"missing"` raises. -/
theorem remove_spec_witness :
    ((mgrEx.remove "latency").2 = none ∧
      dictLookup (mgrEx.remove "latency").1.metrics "latency" = none ∧
      ((mgrEx.remove "latency").1.record "latency" 1).2 =
        Except.error TelemetryError.metricNotFound ∧
      ((mgrEx.remove "latency").1.remove "latency").2 =
        some TelemetryError.metricNotFound) ∧
    mgrEx.remove "missing" = (mgrEx, some TelemetryError.metricNotFound) :=
  ⟨(remove_spec mgrEx "latency" 1).1 (by decide),
   (remove_spec mgrEx "missing" 1).2 (by decide)⟩

/-- C6: `add_attributes` merges each key/value of its argument into the
attribute map, overwriting existing keys, and never raises (it is a total
function of the state); in particular `add_attributes {a: v₁}` followed by
`add_attributes {a: v₂}` leaves `a` mapped to `v₂` (last write wins). -/
theorem add_attributes_spec (m : MetricsManager) (attrs : Dict AttrValue)
    (hnd : (attrs.map Prod.fst).Nodup) :
    (∀ k v, (k, v) ∈ attrs →
      dictLookup (m.add_attributes attrs).attributes k = some v) ∧
    (∀ k, k ∉ attrs.map Prod.fst →
      dictLookup (m.add_attributes attrs).attributes k =
        dictLookup m.attributes k) ∧
    (∀ a v₁ v₂,
      dictLookup ((m.add_attributes [(a, v₁)]).add_attributes
        [(a, v₂)]).attributes a = some v₂) := by
  refine ⟨?_, ?_, ?_⟩
  · intro k v hkv
    exact dictLookup_foldl_insert_mem attrs m.attributes k v hnd hkv
  · intro k hk
    exact dictLookup_foldl_insert_notmem attrs m.attributes k hk
  · intro a v₁ v₂
    simp only [MetricsManager.add_attributes, List.foldl_cons, List.foldl_nil]
    exact dictLookup_insert_self _ a v₂

/-- Witness for C6 at the example manager: merged keys land with their
values, untouched keys keep theirs, and a double write to `"a"` leaves the
second value. -/
theorem add_attributes_spec_witness :
    dictLookup (mgrEx.add_attributes
      [("env", "prod"), ("zone", "eu")]).attributes "env" = some "prod" ∧
    dictLookup (mgrEx.add_attributes
      [("env", "prod"), ("zone", "eu")]).attributes "region" =
      dictLookup mgrEx.attributes "region" ∧
    dictLookup ((mgrEx.add_attributes [("a", "1")]).add_attributes
      [("a", "2")]).attributes "a" = some "2" := by
  have h := add_attributes_spec mgrEx [("env", "prod"), ("zone", "eu")] (by decide)
  exact ⟨h.1 "env" "prod" (by decide), h.2.1 "region" (by decide),
    h.2.2 "a" "1" "2"⟩

/-- C7: `remove_attributes` on a key absent from the attribute map is a
no-op (state unchanged, nothing raised — it is a total function), while on a
present key it deletes it; in contrast, `remove` on a metric key absent from
the metrics map raises `MetricNotFound`. -/
theorem remove_attributes_spec (m : MetricsManager) (a : String) :
    (dictLookup m.attributes a = none → m.remove_attributes a = m) ∧
    (dictContains m.attributes a = true →
      dictLookup (m.remove_attributes a).attributes a = none) ∧
    (dictLookup m.metrics a = none →
      (m.remove a).2 = some TelemetryError.metricNotFound) := by
  refine ⟨?_, ?_, ?_⟩
  · intro h
    simp [MetricsManager.remove_attributes, dictContains, h]
  · intro h
    simp [MetricsManager.remove_attributes, h, dictLookup_erase_self]
  · intro h
    simp [MetricsManager.remove, dictContains, h]

/-- Witness for C7 at the example manager: removing the absent attribute
`"env"` is a no-op, removing the present attribute `"region"` deletes it,
and `remove` on the absent metric key `"region"` raises. -/
theorem remove_attributes_spec_witness :
    mgrEx.remove_attributes "env" = mgrEx ∧
    dictLookup (mgrEx.remove_attributes "region").attributes "region" = none ∧
    (mgrEx.remove "region").2 = some TelemetryError.metricNotFound :=
  ⟨(remove_attributes_spec mgrEx "env").1 (by decide),
   (remove_attributes_spec mgrEx "region").2.1 (by decide),
   (remove_attributes_spec mgrEx "region").2.2 (by decide)⟩

/-- C8: after `customize_record_factory(attributes)`, every record produced
by the installed factory is the record the previously installed factory
would have produced for the same arguments with each named field of
`attributes` set on top; a second call layers its attributes over records
already carrying the first call's fields, keeping the previous factory as
fallback. -/
theorem customize_record_factory_spec (s : LoggingState)
    (attrs : Dict AttrValue) (hnd : (attrs.map Prod.fst).Nodup) :
    (∀ args, (customize_record_factory attrs s).recordFactory args =
      setattrs (s.recordFactory args) attrs) ∧
    (∀ args k v, (k, v) ∈ attrs →
      dictLookup ((customize_record_factory attrs s).recordFactory args) k =
        some v) ∧
    (∀ args k, k ∉ attrs.map Prod.fst →
      dictLookup ((customize_record_factory attrs s).recordFactory args) k =
        dictLookup (s.recordFactory args) k) ∧
    (∀ attrs₂ args,
      (customize_record_factory attrs₂
        (customize_record_factory attrs s)).recordFactory args =
      setattrs (setattrs (s.recordFactory args) attrs) attrs₂) := by
  refine ⟨fun args => rfl, ?_, ?_, fun attrs₂ args => rfl⟩
  · intro args k v hkv
    exact dictLookup_foldl_insert_mem attrs (s.recordFactory args) k v hnd hkv
  · intro args k hk
    exact dictLookup_foldl_insert_notmem attrs (s.recordFactory args) k hk

/-- Witness for C8 at the concrete logging state: the customized factory
keeps the base record's `"msg"` field, gains `"region"`, and a second
customization layers `"env"` on top. -/
theorem customize_record_factory_spec_witness :
    dictLookup ((customize_record_factory [("region", "us")]
      s₀).recordFactory []) "region" = some "us" ∧
    dictLookup ((customize_record_factory [("region", "us")]
      s₀).recordFactory []) "msg" = dictLookup (s₀.recordFactory []) "msg" ∧
    (customize_record_factory [("env", "prod")]
        (customize_record_factory [("region", "us")] s₀)).recordFactory [] =
      setattrs (setattrs (s₀.recordFactory []) [("region", "us")])
        [("env", "prod")] := by
  have h := customize_record_factory_spec s₀ [("region", "us")] (by decide)
  exact ⟨h.2.1 [] "region" "us" (by decide), h.2.2.1 [] "msg" (by decide),
    h.2.2.2 [("env", "prod")] []⟩

/-- C9: `setup_logging` is not idempotent: on a well-formed logging state,
calling it twice attaches two export-forwarding handlers to the root logger
and registers two batch log-record processors, and the resulting state
differs from that of a single call. -/
theorem setup_logging_not_idempotent (s : LoggingState) (hwf : s.wf) :
    (setup_logging (setup_logging s)).rootExportHandlers.length =
      s.rootExportHandlers.length + 2 ∧
    (setup_logging (setup_logging s)).logRecordProcessors.length =
      s.logRecordProcessors.length + 2 ∧
    (setup_logging s).rootExportHandlers.length =
      s.rootExportHandlers.length + 1 ∧
    (setup_logging s).logRecordProcessors.length =
      s.logRecordProcessors.length + 1 ∧
    setup_logging (setup_logging s) ≠ setup_logging s := by
  have h1 := setup_logging_fresh s hwf
  have h2 := setup_logging_fresh (setup_logging s) (setup_logging_wf s hwf)
  have hlen2 : (setup_logging (setup_logging s)).rootExportHandlers.length =
      s.rootExportHandlers.length + 2 := by
    rw [h2, h1]
    simp
  refine ⟨hlen2, ?_, ?_, ?_, ?_⟩
  · rw [h2, h1]
    simp
  · rw [h1]
    simp
  · rw [h1]
    simp
  · intro heq
    have := congrArg (fun st => st.rootExportHandlers.length) heq
    simp only at this
    rw [hlen2] at this
    rw [h1] at this
    simp at this

/-- Witness for C9 at the empty logging state: two calls leave two handlers
and two processors, one call leaves one of each, and the two resulting
states differ. -/
theorem setup_logging_not_idempotent_witness :
    (setup_logging (setup_logging s₀)).rootExportHandlers.length =
      s₀.rootExportHandlers.length + 2 ∧
    (setup_logging (setup_logging s₀)).logRecordProcessors.length =
      s₀.logRecordProcessors.length + 2 ∧
    (setup_logging s₀).rootExportHandlers.length =
      s₀.rootExportHandlers.length + 1 ∧
    (setup_logging s₀).logRecordProcessors.length =
      s₀.logRecordProcessors.length + 1 ∧
    setup_logging (setup_logging s₀) ≠ setup_logging s₀ :=
  setup_logging_not_idempotent s₀
    (by refine ⟨?_, ?_⟩ <;> intro x hx <;> simp [s₀] at hx)
